import Mathlib

/-!
# Verification of the X_Scraper synthetic-scraping and reporting core

Shallow embedding of the repository's two tool entry points:

* `ScrapeXTool` (`src/sentiment_x_analysis/src/sentiment_x_analysis/tools/custom_scraper_tool.py`):
  sample-data generators `_generate_sample_user_data` / `_generate_sample_tweets`
  and the batch entry point `_run`.
* `PDFWriterTool._run` (`.../tools/pdf_write.py`).

Python strings are modelled through their character lists; Python's
`random.randint` / `random.uniform` / `random.choice` draws are modelled by
explicit oracle values threaded through the generators (`randint a b r`
reduces an arbitrary natural draw `r` into the inclusive range `[a, b]`,
`uniformQ a b t` reduces an arbitrary rational draw into `[a, b)`), so every
theorem quantifies over all possible random draws.  Python exceptions are
modelled with `Except`.
-/

namespace XScraper

/-! ## Python string primitives -/

/-- The whitespace characters recognised by Python's `str.strip()` /
`str.split()` (ASCII fragment). -/
def isPySpace (c : Char) : Bool :=
  c = ' ' || c = '\t' || c = '\n' || c = '\r' || c = '\x0b' || c = '\x0c'

/-- Python `s.strip()`: drop leading and trailing whitespace. -/
def pyStrip (s : String) : String :=
  String.mk (((s.data.dropWhile (fun c => isPySpace c)).reverse.dropWhile
    (fun c => isPySpace c)).reverse)

/-- Python `s[:n]`: the first `n` characters of `s`. -/
def pySlice (n : Nat) (s : String) : String :=
  String.mk (s.data.take n)

/-- Python `s.replace('@', '')`: remove every occurrence of `'@'`. -/
def pyRemoveAts (s : String) : String :=
  String.mk (s.data.filter (fun c => c ≠ '@'))

/-- Worker for `s.split(',')`: cut at every separator, keeping empty pieces.
`cur` holds the characters of the current piece in reverse. -/
def splitOnCommaAux (cur : List Char) : List Char → List (List Char)
  | [] => [cur.reverse]
  | c :: rest =>
      if c = ',' then cur.reverse :: splitOnCommaAux [] rest
      else splitOnCommaAux (c :: cur) rest

/-- Python `s.split(',')`. -/
def pySplitComma (s : String) : List String :=
  (splitOnCommaAux [] s.data).map String.mk

/-- Worker for Python's no-argument `s.split()`: split on runs of whitespace,
dropping empty tokens.  `cur` holds the current token in reverse. -/
def splitWsAux (cur : List Char) : List Char → List (List Char)
  | [] => if cur = [] then [] else [cur.reverse]
  | c :: rest =>
      if isPySpace c then
        if cur = [] then splitWsAux [] rest
        else cur.reverse :: splitWsAux [] rest
      else splitWsAux (c :: cur) rest

/-- Python `s.split()` (no argument): whitespace tokenisation. -/
def pySplitWs (s : String) : List String :=
  (splitWsAux [] s.data).map String.mk

/-- Python `s.startswith(c)` for a single-character prefix. -/
def pyStartsWith (c : Char) (s : String) : Bool :=
  match s.data with
  | [] => false
  | c' :: _ => c' = c

/-- Python `s[1:]`. -/
def pyTail (s : String) : String :=
  String.mk s.data.tail

/-- Worker for Python `s.title()`: uppercase every alphabetic character that
follows a non-alphabetic one, lowercase the others.  `prevCased` records
whether the previous character was cased. -/
def titleAux : Bool → List Char → List Char
  | _, [] => []
  | prevCased, c :: rest =>
      if c.isAlpha then
        (if prevCased then c.toLower else c.toUpper) :: titleAux true rest
      else
        c :: titleAux false rest

/-- Python `s.title()` (ASCII fragment). -/
def pyTitle (s : String) : String :=
  String.mk (titleAux false s.data)

/-! ## Randomness oracles -/

/-- Python `random.randint(a, b)` (inclusive bounds), fed by an arbitrary
natural draw `r`. -/
def randint (a b : Nat) (r : Nat) : Nat :=
  a + r % (b - a + 1)

/-- Python `random.uniform(a, b)`, fed by an arbitrary rational draw `t`:
the fractional part of `t` is scaled into `[a, b)`. -/
def uniformQ (a b : ℚ) (t : ℚ) : ℚ :=
  a + (b - a) * Int.fract t

/-- Python `random.choice(l)`, fed by an arbitrary natural draw `r`
(`d` is a dummy default for the impossible empty case). -/
def pyChoice {α : Type} (l : List α) (d : α) (r : Nat) : α :=
  l.getD (r % l.length) d

/-! ## Data model (`TweetData`, `UserData` pydantic schemas) -/

/-- Schema for individual tweet data (`TweetData` in `custom_scraper_tool.py`). -/
structure TweetData where
  tweet_id : String
  username : String
  text : String
  timestamp : String
  likes : Nat
  retweets : Nat
  replies : Nat
  views : Nat
  hashtags : List String
  mentions : List String
  urls : List String
deriving DecidableEq

/-- Schema for user profile data (`UserData` in `custom_scraper_tool.py`). -/
structure UserData where
  username : String
  display_name : String
  bio : String
  followers_count : Nat
  following_count : Nat
  tweet_count : Nat
  verified : Bool
deriving DecidableEq

/-! ## `_generate_sample_tweets` -/

/-- The five literal tweet templates of `_generate_sample_tweets`. -/
def tweet_templates : List String :=
  ["\x7btopic\x7d is the future",
   "Bullish on \x7btopic\x7d",
   "Building with \x7btopic\x7d",
   "\x7btopic\x7d update coming",
   "Love \x7btopic\x7d community"]

/-- The `topic_themes` table of `_generate_sample_tweets` (10 entries). -/
def topic_themes : List (String × List String) :=
  [("elonmusk", ["Tesla", "SpaceX", "AI", "Mars", "sustainable energy", "neural interfaces"]),
   ("naval", ["startups", "investing", "philosophy", "wealth creation", "happiness"]),
   ("chamath", ["venture capital", "SPACs", "technology", "social media", "investing"]),
   ("garyvee", ["marketing", "entrepreneurship", "NFTs", "social media", "hustle"]),
   ("balajis", ["crypto", "decentralization", "network states", "technology", "Bitcoin"]),
   ("cdixon", ["crypto", "web3", "investing", "technology trends", "blockchain"]),
   ("aronvanammers", ["AI", "machine learning", "technology", "automation", "future"]),
   ("aantonop", ["Bitcoin", "cryptocurrency", "blockchain", "decentralization", "privacy"]),
   ("VitalikButerin", ["Ethereum", "blockchain", "crypto economics", "scalability", "DeFi"]),
   ("satyanadella", ["Microsoft", "cloud computing", "AI", "digital transformation", "leadership"])]

/-- The default topic list used when the username is not in `topic_themes`. -/
def default_topics : List String :=
  ["technology", "innovation", "business", "future", "AI"]

/-- `topic_themes.get(username, default)`. -/
def topicsFor (username : String) : List String :=
  match topic_themes.find? (fun p => p.1 = username) with
  | some p => p.2
  | none => default_topics

/-- Python `template.format(topic=topic)` for these templates: substitute the
topic for every occurrence of the literal field `"\x7btopic\x7d"`. -/
def substTopic (topic : List Char) : List Char → List Char
  | '\x7b' :: 't' :: 'o' :: 'p' :: 'i' :: 'c' :: '\x7d' :: rest =>
      topic ++ substTopic topic rest
  | c :: rest => c :: substTopic topic rest
  | [] => []

/-- `template.format(topic=topic)` on strings. -/
def pyFormatTopic (template topic : String) : String :=
  String.mk (substTopic topic.data template.data)

/-- The random draws consumed for one generated tweet, in the order the
source draws them, plus the environment clock readings used for the
timestamp fields. -/
structure TweetRand where
  rTemplate : Nat
  rTopic : Nat
  rBase : Nat
  rLikesExtra : Nat
  uRetweets : ℚ
  uReplies : ℚ
  rViews : Nat
  rDays : Nat
  rHours : Nat
  tsIso : String
  tsEpoch : Int

/-- `word.startswith('#')`-style extraction used by `_generate_sample_tweets`:
`[word[1:] for word in text.split() if word.startswith(c)]`. -/
def extractTagged (c : Char) (text : String) : List String :=
  ((pySplitWs text).filter (fun w => pyStartsWith c w)).map pyTail

/-- The body of `_generate_sample_tweets`'s loop for index `i`, fed by the
random draws `r`. -/
def mkTweet (username : String) (i : Nat) (r : TweetRand) : TweetData :=
  let template := pyChoice tweet_templates "" r.rTemplate
  let topic := pyChoice (topicsFor username) "" r.rTopic
  let text := pyFormatTopic template topic
  let base_engagement := randint 100 10000 r.rBase
  let likes := base_engagement + randint 0 (base_engagement * 2) r.rLikesExtra
  let retweets := (Int.floor ((likes : ℚ) * uniformQ (1/10) (3/10) r.uRetweets)).toNat
  let replies := (Int.floor ((likes : ℚ) * uniformQ (5/100) (15/100) r.uReplies)).toNat
  let views := likes * randint 10 50 r.rViews
  { tweet_id := username ++ "_" ++ toString i ++ "_" ++ toString r.tsEpoch
    username := username
    text := text
    timestamp := r.tsIso
    likes := likes
    retweets := retweets
    replies := replies
    views := views
    hashtags := extractTagged '#' text
    mentions := extractTagged '@' text
    urls := [] }

/-- `_generate_sample_tweets(username, count)`: one tweet per loop index,
each consuming its own draws from the oracle `rand`. -/
def generate_sample_tweets (username : String) (count : Nat)
    (rand : Nat → TweetRand) : List TweetData :=
  (List.range count).map (fun i => mkTweet username i (rand i))

/-! ## `_generate_sample_user_data` -/

/-- One literal row of the `user_profiles` table. -/
structure ProfileRec where
  display_name : String
  bio : String
  followers_count : Nat
  following_count : Nat
  tweet_count : Nat
  verified : Bool
deriving DecidableEq

/-- The literal `user_profiles` table of `_generate_sample_user_data`
(5 entries in the source). -/
def user_profiles : List (String × ProfileRec) :=
  [("elonmusk",
    { display_name := "Elon Musk"
      bio := "CEO of Tesla, SpaceX, and more. Building the future."
      followers_count := 150000000, following_count := 500
      tweet_count := 25000, verified := true }),
   ("naval",
    { display_name := "Naval"
      bio := "Entrepreneur, investor, and philosopher."
      followers_count := 2000000, following_count := 100
      tweet_count := 15000, verified := true }),
   ("chamath",
    { display_name := "Chamath Palihapitiya"
      bio := "Venture capitalist and entrepreneur."
      followers_count := 1500000, following_count := 200
      tweet_count := 12000, verified := true }),
   ("garyvee",
    { display_name := "Gary Vaynerchuk"
      bio := "Entrepreneur, CEO, investor, and content creator."
      followers_count := 3000000, following_count := 300000
      tweet_count := 200000, verified := true }),
   ("balajis",
    { display_name := "Balaji Srinivasan"
      bio := "Entrepreneur, investor, technologist."
      followers_count := 800000, following_count := 1000
      tweet_count := 20000, verified := true })]

/-- The random draws consumed by the fallback branch of
`_generate_sample_user_data`. -/
structure ProfileRand where
  rFollowers : Nat
  rFollowing : Nat
  rTweets : Nat
  rVerified : Nat

/-- `_generate_sample_user_data(username)`: literal table lookup, falling back
to a synthesized profile fed by the draws `r`. -/
def generate_sample_user_data (username : String) (r : ProfileRand) : UserData :=
  match user_profiles.find? (fun p => p.1 = username) with
  | some p =>
      { username := username
        display_name := p.2.display_name
        bio := p.2.bio
        followers_count := p.2.followers_count
        following_count := p.2.following_count
        tweet_count := p.2.tweet_count
        verified := p.2.verified }
  | none =>
      { username := username
        display_name := pyTitle username
        bio := "Content creator and thought leader @" ++ username
        followers_count := randint 10000 1000000 r.rFollowers
        following_count := randint 100 5000 r.rFollowing
        tweet_count := randint 1000 50000 r.rTweets
        verified := pyChoice [true, false] true r.rVerified }

/-! ## `ScrapeXTool._run` -/

/-- The `user_info` sub-dictionary stored for a successful username. -/
structure UserInfoOut where
  username : String
  display_name : String
  followers_count : Nat
deriving DecidableEq

/-- One truncated tweet record `{'text': tweet.text[:50], 'likes': tweet.likes}`. -/
structure TweetOut where
  text : String
  likes : Nat
deriving DecidableEq

/-- The per-username record stored in `results['users']`; the `error` key is
present exactly on the failure branch. -/
structure UserEntry where
  user_info : Option UserInfoOut
  tweets : List TweetOut
  tweet_count : Nat
  scrape_success : Bool
  error : Option String
deriving DecidableEq

/-- Python-dict insertion on an association list: overwrite the value at an
existing key in place, otherwise append the new pair. -/
def dictInsert (k : String) (v : UserEntry) (d : List (String × UserEntry)) :
    List (String × UserEntry) :=
  if d.any (fun p => p.1 = k) then
    d.map (fun p => if p.1 = k then (k, v) else p)
  else d ++ [(k, v)]

/-- Python-dict lookup on an association list. -/
def dlookup (k : String) : List (String × UserEntry) → Option UserEntry
  | [] => none
  | p :: rest => if p.1 = k then some p.2 else dlookup k rest

/-- A per-username generation step: position in the batch and username in,
profile and tweet list out, or an exception message.  `ScrapeXTool._run`
instantiates this with `_generate_sample_user_data` + `_generate_sample_tweets`
(see `genFromOracles`); the `error` case models a Python exception escaping
the generation calls. -/
def Gen : Type := Nat → String → Except String (UserData × List TweetData)

/-- The generation step actually performed by `_run`: the pure sample
generators, drawing from per-position oracles.  It never throws. -/
def genFromOracles (profOracle : Nat → ProfileRand)
    (tweetOracle : Nat → Nat → TweetRand) (tweet_count : Nat) : Gen :=
  fun i u =>
    Except.ok (generate_sample_user_data u (profOracle i),
               generate_sample_tweets u tweet_count (tweetOracle i))

/-- The body of `_run`'s `for username in username_list` loop: the stored
`UserEntry` together with `len(tweets)` of the generated (untruncated) tweet
list (`0` on the exception branch, where `total_tweets` is not advanced). -/
def processUser (gen : Gen) (i : Nat) (u : String) : UserEntry × Nat :=
  match gen i u with
  | Except.ok (user_data, tweets) =>
      ({ user_info := some
           { username := user_data.username
             display_name := user_data.display_name
             followers_count := user_data.followers_count }
         tweets := (tweets.take 10).map
           (fun t => { text := pySlice 50 t.text, likes := t.likes })
         tweet_count := min tweets.length 10
         scrape_success := true
         error := none }, tweets.length)
  | Except.error e =>
      ({ user_info := none
         tweets := []
         tweet_count := 0
         scrape_success := false
         error := some e }, 0)

/-- The mutable state of `_run`'s loop: the `results['users']` dictionary and
the `total_tweets` / `successful_scrapes` counters. -/
structure LoopState where
  users : List (String × UserEntry)
  total_tweets : Nat
  successful : Nat
deriving DecidableEq

/-- `_run`'s loop over the username list, starting at position `i`. -/
def scrapeLoop (gen : Gen) : List String → Nat → LoopState → LoopState
  | [], _, st => st
  | u :: rest, i, st =>
      let pr := processUser gen i u
      scrapeLoop gen rest (i + 1)
        { users := dictInsert u pr.1 st.users
          total_tweets := st.total_tweets + pr.2
          successful := st.successful + (if pr.1.scrape_success then 1 else 0) }

/-- The `results['summary']` dictionary.  `failed_scrapes` is a Python `int`
(difference), `success_rate` and `average_tweets_per_user` are true divisions. -/
structure Summary where
  total_tweets_collected : Nat
  successful_scrapes : Nat
  failed_scrapes : Int
  success_rate : ℚ
  average_tweets_per_user : ℚ
deriving DecidableEq

/-- The `results['scrape_metadata']` dictionary (`timestamp` is the wall-clock
reading, passed in as a parameter). -/
structure ScrapeMetadata where
  timestamp : String
  usernames_requested : List String
  tweets_per_user : Nat
  total_users : Nat
  scrape_method : String
deriving DecidableEq

/-- The full `results` structure returned (as JSON) by `_run`. -/
structure ScrapeOutput where
  scrape_metadata : ScrapeMetadata
  users : List (String × UserEntry)
  summary : Summary
deriving DecidableEq

/-- `_run`'s input normalisation: a comma-separated string is split, and each
piece is stripped and has every `'@'` removed; a list input is used as-is. -/
def normalizeUsernames : Sum String (List String) → List String
  | Sum.inl s => (pySplitComma s).map (fun u => pyRemoveAts (pyStrip u))
  | Sum.inr l => l

/-- `ScrapeXTool._run(usernames, tweet_count)`, with the generation step and
the wall clock abstracted as parameters. -/
def scrapeRun (gen : Gen) (nowIso : String) (usernames : Sum String (List String))
    (tweet_count : Nat) : ScrapeOutput :=
  let username_list := normalizeUsernames usernames
  let st := scrapeLoop gen username_list 0 ⟨[], 0, 0⟩
  { scrape_metadata :=
      { timestamp := nowIso
        usernames_requested := username_list
        tweets_per_user := tweet_count
        total_users := username_list.length
        scrape_method := "sample_data_generator" }
    users := st.users
    summary :=
      { total_tweets_collected := st.total_tweets
        successful_scrapes := st.successful
        failed_scrapes := (username_list.length : Int) - (st.successful : Int)
        success_rate :=
          if username_list = [] then 0
          else (st.successful : ℚ) / (username_list.length : ℚ)
        average_tweets_per_user :=
          if 0 < st.successful then (st.total_tweets : ℚ) / (st.successful : ℚ)
          else 0 } }

/-! ## `PDFWriterTool._run` -/

/-- The output path `os.path.join("outputs", "reports", output_filename)`,
after the default-filename fallback (`not output_filename` is true for both
`None` and the empty string). -/
def pdfOutputPath (timestamp : String) (output_filename : Option String) : String :=
  let fname :=
    match output_filename with
    | none => "report_" ++ timestamp ++ ".pdf"
    | some s => if s = "" then "report_" ++ timestamp ++ ".pdf" else s
  "outputs/reports/" ++ fname

/-- `PDFWriterTool._run(data, output_filename)`.  `dataIsMapping` and
`dataNonempty` model `isinstance(data, dict)` and `bool(data)`; `gen` models
whichever backend (`_generate_reportlab_pdf` or `_generate_simple_pdf`) is
selected, returning its boolean or throwing.  The result is always a string. -/
def pdfRun (dataIsMapping dataNonempty : Bool) (timestamp : String)
    (output_filename : Option String) (gen : String → Except String Bool) : String :=
  if !dataIsMapping || !dataNonempty then
    "Error: Invalid data provided for PDF generation."
  else
    match gen (pdfOutputPath timestamp output_filename) with
    | Except.ok true =>
        "PDF report successfully generated at: "
          ++ pdfOutputPath timestamp output_filename
    | Except.ok false =>
        "Failed to generate PDF report. Check logs for details. (Path: "
          ++ pdfOutputPath timestamp output_filename ++ ")"
    | Except.error e =>
        "An unexpected error occurred during PDF generation: " ++ e

/-- The index of the last occurrence of `u` in a list, if any. -/
def lastIdx? (u : String) : List String → Option Nat
  | [] => none
  | x :: rest =>
      match lastIdx? u rest with
      | some j => some (j + 1)
      | none => if x = u then some 0 else none

/-! ## Concrete sample values (used to instantiate universally quantified
theorems at explicit inputs) -/

/-- A concrete tweet value. -/
def sampleTweet : TweetData :=
  { tweet_id := "w_0_0", username := "w", text := "hello world", timestamp := "t"
    likes := 3, retweets := 1, replies := 0, views := 30
    hashtags := [], mentions := [], urls := [] }

/-- A concrete profile value. -/
def sampleUser : UserData :=
  { username := "w", display_name := "W", bio := "b"
    followers_count := 1, following_count := 2, tweet_count := 3, verified := false }

/-- A generation step that always succeeds with one tweet. -/
def genOk : Gen := fun _ _ => Except.ok (sampleUser, [sampleTweet])

/-- A generation step that always throws. -/
def genErr : Gen := fun _ _ => Except.error "boom"

/-- A PDF backend that always throws. -/
def genPdfErr : String → Except String Bool := fun _ => Except.error "disk"

/-! ## Oracle lemmas -/

theorem randint_le {a b : Nat} (h : a ≤ b) (r : Nat) : randint a b r ≤ b := by
  have hlt : r % (b - a + 1) < b - a + 1 := Nat.mod_lt _ (Nat.succ_pos _)
  have : r % (b - a + 1) ≤ b - a := Nat.lt_succ_iff.mp hlt
  unfold randint
  omega

theorem le_randint (a b r : Nat) : a ≤ randint a b r := Nat.le_add_right _ _

theorem uniformQ_le {a b : ℚ} (h : a ≤ b) (t : ℚ) : uniformQ a b t ≤ b := by
  have h1 : Int.fract t < 1 := Int.fract_lt_one t
  have h2 : (0 : ℚ) ≤ Int.fract t := Int.fract_nonneg t
  have h3 : (b - a) * Int.fract t ≤ (b - a) * 1 := by
    apply mul_le_mul_of_nonneg_left (le_of_lt h1)
    linarith
  unfold uniformQ
  linarith

theorem le_uniformQ {a b : ℚ} (h : a ≤ b) (t : ℚ) : a ≤ uniformQ a b t := by
  have h2 : (0 : ℚ) ≤ Int.fract t := Int.fract_nonneg t
  have h3 : (0 : ℚ) ≤ (b - a) * Int.fract t := by
    apply mul_nonneg _ h2
    linarith
  unfold uniformQ
  linarith

theorem pyChoice_mem {α : Type} (l : List α) (d : α) (r : Nat) (h : l ≠ []) :
    pyChoice l d r ∈ l := by
  unfold pyChoice
  have hlen : 0 < l.length := List.length_pos.mpr h
  have hlt : r % l.length < l.length := Nat.mod_lt _ hlen
  rw [List.getD_eq_getElem l d hlt]
  exact List.getElem_mem hlt

/-! ## Dictionary lemmas -/

theorem any_key_iff (d : List (String × UserEntry)) (k : String) :
    (d.any (fun p => p.1 = k) = true) ↔ k ∈ d.map Prod.fst := by
  simp [List.any_eq_true]

theorem map_fst_overwrite (k : String) (v : UserEntry) (d : List (String × UserEntry)) :
    (d.map (fun p => if p.1 = k then (k, v) else p)).map Prod.fst = d.map Prod.fst := by
  induction d with
  | nil => rfl
  | cons p rest ih =>
      simp only [List.map_cons, ih, List.cons.injEq, and_true]
      by_cases h : p.1 = k
      · rw [if_pos h]
        exact h.symm
      · rw [if_neg h]

theorem keys_dictInsert_of_mem {k : String} {d : List (String × UserEntry)}
    (v : UserEntry) (h : k ∈ d.map Prod.fst) :
    (dictInsert k v d).map Prod.fst = d.map Prod.fst := by
  unfold dictInsert
  rw [if_pos ((any_key_iff d k).mpr h)]
  exact map_fst_overwrite k v d

theorem keys_dictInsert_of_not_mem {k : String} {d : List (String × UserEntry)}
    (v : UserEntry) (h : k ∉ d.map Prod.fst) :
    (dictInsert k v d).map Prod.fst = d.map Prod.fst ++ [k] := by
  unfold dictInsert
  rw [if_neg (fun hc => h ((any_key_iff d k).mp hc))]
  simp

theorem mem_keys_dictInsert (k' k : String) (v : UserEntry) (d : List (String × UserEntry)) :
    k' ∈ (dictInsert k v d).map Prod.fst ↔ k' ∈ d.map Prod.fst ∨ k' = k := by
  by_cases h : k ∈ d.map Prod.fst
  · rw [keys_dictInsert_of_mem v h]
    constructor
    · exact Or.inl
    · rintro (hm | rfl)
      · exact hm
      · exact h
  · rw [keys_dictInsert_of_not_mem v h]
    simp

theorem nodup_keys_dictInsert (k : String) (v : UserEntry) (d : List (String × UserEntry))
    (hd : (d.map Prod.fst).Nodup) : ((dictInsert k v d).map Prod.fst).Nodup := by
  by_cases h : k ∈ d.map Prod.fst
  · rw [keys_dictInsert_of_mem v h]
    exact hd
  · rw [keys_dictInsert_of_not_mem v h]
    rw [List.nodup_append]
    refine ⟨hd, List.nodup_singleton k, ?_⟩
    intro a ha hb
    rw [List.mem_singleton] at hb
    subst hb
    exact h ha

theorem dlookup_map_overwrite (k : String) (v : UserEntry) (d : List (String × UserEntry)) :
    dlookup k (d.map (fun p => if p.1 = k then (k, v) else p)) =
      if k ∈ d.map Prod.fst then some v else none := by
  induction d with
  | nil => rfl
  | cons p rest ih =>
      by_cases h : p.1 = k
      · have hmem : k ∈ p.1 :: rest.map Prod.fst := by
          rw [h]
          exact List.mem_cons_self _ _
        simp only [List.map_cons, if_pos h, dlookup, if_pos hmem, if_pos rfl,
          eq_self_iff_true, if_true]
      · have hiff : k ∈ p.1 :: rest.map Prod.fst ↔ k ∈ rest.map Prod.fst := by
          rw [List.mem_cons]
          constructor
          · rintro (rfl | hm)
            · exact absurd rfl h
            · exact hm
          · exact Or.inr
        simp only [List.map_cons, if_neg h, dlookup, ih]
        rw [if_congr hiff rfl rfl]

theorem dlookup_map_overwrite_ne {k' k : String} (v : UserEntry)
    (d : List (String × UserEntry)) (h : k' ≠ k) :
    dlookup k' (d.map (fun p => if p.1 = k then (k, v) else p)) = dlookup k' d := by
  induction d with
  | nil => rfl
  | cons p rest ih =>
      by_cases hp : p.1 = k
      · have h1 : k ≠ k' := fun hc => h hc.symm
        have h2 : p.1 ≠ k' := by rw [hp]; exact h1
        simp only [List.map_cons, if_pos hp, dlookup, if_neg h1, if_neg h2, ih]
      · simp only [List.map_cons, if_neg hp, dlookup, ih]

theorem dlookup_append_single_ne {k' k : String} (v : UserEntry)
    (d : List (String × UserEntry)) (h : k ≠ k') :
    dlookup k' (d ++ [(k, v)]) = dlookup k' d := by
  induction d with
  | nil => simp [dlookup, h]
  | cons p rest ih =>
      by_cases hp : p.1 = k'
      · simp [dlookup, hp]
      · rw [List.cons_append]
        simp only [dlookup, if_neg hp]
        exact ih

theorem dlookup_append_self {k : String} (v : UserEntry)
    (d : List (String × UserEntry)) (h : k ∉ d.map Prod.fst) :
    dlookup k (d ++ [(k, v)]) = some v := by
  induction d with
  | nil => simp [dlookup]
  | cons p rest ih =>
      have hp : p.1 ≠ k := by
        intro hc
        exact h (by rw [List.map_cons, hc]; exact List.mem_cons_self _ _)
      rw [List.cons_append]
      simp only [dlookup, if_neg hp]
      exact ih (fun hc => h (by rw [List.map_cons]; exact List.mem_cons_of_mem _ hc))

theorem dlookup_dictInsert_self (k : String) (v : UserEntry) (d : List (String × UserEntry)) :
    dlookup k (dictInsert k v d) = some v := by
  unfold dictInsert
  by_cases hm : k ∈ d.map Prod.fst
  · rw [if_pos ((any_key_iff d k).mpr hm), dlookup_map_overwrite, if_pos hm]
  · rw [if_neg (fun hc => hm ((any_key_iff d k).mp hc))]
    exact dlookup_append_self v d hm

theorem dlookup_dictInsert_ne {k' k : String} (v : UserEntry)
    (d : List (String × UserEntry)) (h : k' ≠ k) :
    dlookup k' (dictInsert k v d) = dlookup k' d := by
  unfold dictInsert
  split
  · exact dlookup_map_overwrite_ne v d h
  · exact dlookup_append_single_ne v d (fun hc => h hc.symm)

theorem dlookup_isSome_iff (k : String) (d : List (String × UserEntry)) :
    (dlookup k d).isSome = true ↔ k ∈ d.map Prod.fst := by
  induction d with
  | nil => simp [dlookup]
  | cons p rest ih =>
      by_cases hp : p.1 = k
      · simp [dlookup, hp]
      · simp only [dlookup, if_neg hp, ih, List.map_cons, List.mem_cons]
        constructor
        · exact Or.inr
        · rintro (rfl | hm)
          · exact absurd rfl hp
          · exact hm

/-! ## Loop lemmas -/

theorem scrapeLoop_keys_mem (gen : Gen) (l : List String) :
    ∀ (i : Nat) (st : LoopState) (u : String),
      u ∈ (scrapeLoop gen l i st).users.map Prod.fst ↔
        u ∈ st.users.map Prod.fst ∨ u ∈ l := by
  induction l with
  | nil =>
      intro i st u
      simp [scrapeLoop]
  | cons x rest ih =>
      intro i st u
      rw [scrapeLoop, ih]
      rw [mem_keys_dictInsert]
      rw [List.mem_cons]
      tauto

theorem scrapeLoop_keys_nodup (gen : Gen) (l : List String) :
    ∀ (i : Nat) (st : LoopState), (st.users.map Prod.fst).Nodup →
      ((scrapeLoop gen l i st).users.map Prod.fst).Nodup := by
  induction l with
  | nil =>
      intro i st h
      exact h
  | cons x rest ih =>
      intro i st h
      rw [scrapeLoop]
      exact ih _ _ (nodup_keys_dictInsert _ _ _ h)

theorem scrapeLoop_lookup (gen : Gen) (l : List String) :
    ∀ (i : Nat) (st : LoopState) (u : String),
      dlookup u (scrapeLoop gen l i st).users =
        match lastIdx? u l with
        | some j => some (processUser gen (i + j) u).1
        | none => dlookup u st.users := by
  induction l with
  | nil =>
      intro i st u
      rfl
  | cons x rest ih =>
      intro i st u
      rw [scrapeLoop, ih]
      cases h : lastIdx? u rest with
      | some j =>
          show some (processUser gen (i + 1 + j) u).1 =
            (match lastIdx? u (x :: rest) with
             | some j => some (processUser gen (i + j) u).1
             | none => dlookup u st.users)
          rw [lastIdx?, h]
          have : i + 1 + j = i + (j + 1) := by omega
          rw [this]
      | none =>
          show dlookup u (dictInsert x (processUser gen i x).1 st.users) =
            (match lastIdx? u (x :: rest) with
             | some j => some (processUser gen (i + j) u).1
             | none => dlookup u st.users)
          rw [lastIdx?, h]
          by_cases hx : x = u
          · subst hx
            rw [if_pos rfl, dlookup_dictInsert_self]
            show some (processUser gen i x).1 = some (processUser gen (i + 0) x).1
            rw [Nat.add_zero]
          · rw [if_neg hx, dlookup_dictInsert_ne _ _ (fun hc => hx hc.symm)]

theorem lastIdx?_isSome_iff (u : String) (l : List String) :
    (lastIdx? u l).isSome = true ↔ u ∈ l := by
  induction l with
  | nil => simp [lastIdx?]
  | cons x rest ih =>
      rw [lastIdx?]
      cases h : lastIdx? u rest with
      | some j =>
          simp only [Option.isSome_some, true_iff]
          rw [h] at ih
          exact List.mem_cons_of_mem _ (ih.mp rfl)
      | none =>
          rw [h] at ih
          by_cases hx : x = u
          · subst hx
            simp
          · rw [if_neg hx]
            constructor
            · intro hfalse
              simp at hfalse
            · intro hmem
              rw [List.mem_cons] at hmem
              rcases hmem with rfl | hm
              · exact absurd rfl hx
              · have h2 := ih.mpr hm
                simp at h2

theorem scrapeLoop_successful_of_nil (gen : Gen) (i : Nat) (st : LoopState) :
    scrapeLoop gen [] i st = st := rfl

theorem scrapeLoop_total_tweets (gen : Gen) (l : List String) :
    ∀ (i : Nat) (st : LoopState),
      (scrapeLoop gen l i st).total_tweets =
        st.total_tweets + ((l.enumFrom i).map (fun p => (processUser gen p.1 p.2).2)).sum := by
  induction l with
  | nil =>
      intro i st
      simp [scrapeLoop, List.enumFrom]
  | cons x rest ih =>
      intro i st
      rw [scrapeLoop, ih]
      show st.total_tweets + (processUser gen i x).2 +
          ((rest.enumFrom (i + 1)).map (fun p => (processUser gen p.1 p.2).2)).sum =
        st.total_tweets +
          (((x :: rest).enumFrom i).map (fun p => (processUser gen p.1 p.2).2)).sum
      rw [List.enumFrom, List.map_cons, List.sum_cons]
      have hpair : (processUser gen (i, x).1 (i, x).2).2 = (processUser gen i x).2 := rfl
      rw [hpair]
      omega

/-! ## Text lemmas for the generated tweets -/

theorem mem_substTopic (topic : List Char) (l : List Char) (c : Char)
    (h : c ∈ substTopic topic l) : c ∈ topic ∨ c ∈ l := by
  induction l using substTopic.induct topic with
  | case1 rest ih =>
      rw [substTopic] at h
      rw [List.mem_append] at h
      rcases h with h | h
      · exact Or.inl h
      · rcases ih h with h2 | h2
        · exact Or.inl h2
        · refine Or.inr ?_
          simp only [List.mem_cons]
          tauto
  | case2 c' rest hne ih =>
      rw [substTopic] at h
      · rw [List.mem_cons] at h
        rcases h with rfl | h
        · exact Or.inr (List.mem_cons_self _ _)
        · rcases ih h with h2 | h2
          · exact Or.inl h2
          · exact Or.inr (List.mem_cons_of_mem _ h2)
      · exact hne
  | case3 =>
      rw [substTopic] at h
      cases h

theorem mem_of_mem_splitWsAux :
    ∀ (l cur tok : List Char), tok ∈ splitWsAux cur l →
      ∀ c ∈ tok, c ∈ cur ∨ c ∈ l := by
  intro l
  induction l with
  | nil =>
      intro cur tok htok c hc
      rw [splitWsAux] at htok
      by_cases hcur : cur = []
      · rw [if_pos hcur] at htok
        cases htok
      · rw [if_neg hcur] at htok
        rw [List.mem_singleton] at htok
        subst htok
        exact Or.inl (List.mem_reverse.mp hc)
  | cons x rest ih =>
      intro cur tok htok c hc
      rw [splitWsAux] at htok
      by_cases hsp : isPySpace x = true
      · rw [if_pos hsp] at htok
        by_cases hcur : cur = []
        · rw [if_pos hcur] at htok
          rcases ih [] tok htok c hc with h | h
          · cases h
          · exact Or.inr (List.mem_cons_of_mem _ h)
        · rw [if_neg hcur] at htok
          rw [List.mem_cons] at htok
          rcases htok with rfl | htok
          · exact Or.inl (List.mem_reverse.mp hc)
          · rcases ih [] tok htok c hc with h | h
            · cases h
            · exact Or.inr (List.mem_cons_of_mem _ h)
      · rw [if_neg hsp] at htok
        rcases ih (x :: cur) tok htok c hc with h | h
        · rw [List.mem_cons] at h
          rcases h with rfl | h
          · exact Or.inr (List.mem_cons_self _ _)
          · exact Or.inl h
        · exact Or.inr (List.mem_cons_of_mem _ h)

theorem extractTagged_eq_nil (c : Char) (text : String) (h : c ∉ text.data) :
    extractTagged c text = [] := by
  unfold extractTagged
  have hfilter : (pySplitWs text).filter (fun w => pyStartsWith c w) = [] := by
    rw [List.filter_eq_nil_iff]
    intro w hw
    unfold pySplitWs at hw
    rw [List.mem_map] at hw
    obtain ⟨tok, htok, rfl⟩ := hw
    intro hstart
    unfold pyStartsWith at hstart
    cases tok with
    | nil => simp at hstart
    | cons c' tl =>
        have hc' : c' = c := by simpa using hstart
        subst hc'
        rcases mem_of_mem_splitWsAux text.data [] (c' :: tl) htok c'
          (List.mem_cons_self _ _) with h2 | h2
        · cases h2
        · exact h h2
  rw [hfilter]
  rfl

/-- None of the five tweet templates contains a `'#'` or `'@'` character. -/
theorem tweet_templates_clean :
    ∀ s ∈ tweet_templates, '#' ∉ s.data ∧ '@' ∉ s.data := by decide

/-- No topic string anywhere in `topic_themes` contains `'#'` or `'@'`. -/
theorem topic_themes_clean :
    ∀ p ∈ topic_themes, ∀ t ∈ p.2, '#' ∉ t.data ∧ '@' ∉ t.data := by decide

/-- No default topic contains `'#'` or `'@'`. -/
theorem default_topics_clean :
    ∀ t ∈ default_topics, '#' ∉ t.data ∧ '@' ∉ t.data := by decide

theorem topicsFor_clean (u t : String) (h : t ∈ topicsFor u) :
    '#' ∉ t.data ∧ '@' ∉ t.data := by
  unfold topicsFor at h
  cases hf : topic_themes.find? (fun p => p.1 = u) with
  | some p =>
      rw [hf] at h
      exact topic_themes_clean p (List.mem_of_find?_eq_some hf) t h
  | none =>
      rw [hf] at h
      exact default_topics_clean t h

/-- Every topic list in `topic_themes` is non-empty. -/
theorem topic_themes_vals_ne_nil : ∀ p ∈ topic_themes, p.2 ≠ [] := by decide

theorem topicsFor_ne_nil (u : String) : topicsFor u ≠ [] := by
  unfold topicsFor
  cases hf : topic_themes.find? (fun p => p.1 = u) with
  | some p => exact topic_themes_vals_ne_nil p (List.mem_of_find?_eq_some hf)
  | none => decide

theorem tweet_templates_ne_nil : tweet_templates ≠ [] := by decide

/-- Truncation bound used for the engagement metrics: `int(L * q) ≤ L` for
`q ≤ 1`. -/
theorem floor_mul_le (L : Nat) (q : ℚ) (h1 : q ≤ 1) :
    (Int.floor ((L : ℚ) * q)).toNat ≤ L := by
  have hle : (L : ℚ) * q ≤ (L : ℚ) := by
    have := mul_le_of_le_one_right (show (0 : ℚ) ≤ (L : ℚ) from Nat.cast_nonneg L) h1
    exact this
  have hfl : Int.floor ((L : ℚ) * q) ≤ Int.floor ((L : ℚ)) := Int.floor_le_floor hle
  rw [Int.floor_natCast] at hfl
  exact Int.toNat_le.mpr hfl

/-! ## Claim theorems -/

/-- C7: every tweet produced by `_generate_sample_tweets` satisfies
`retweets ≤ likes`, `replies ≤ likes`, and `views ≥ likes * 10`, for every
possible random draw. -/
theorem tweet_engagement_bounds (username : String) (i : Nat) (r : TweetRand) :
    (mkTweet username i r).retweets ≤ (mkTweet username i r).likes ∧
    (mkTweet username i r).replies ≤ (mkTweet username i r).likes ∧
    (mkTweet username i r).likes * 10 ≤ (mkTweet username i r).views := by
  have hret : (mkTweet username i r).retweets =
      (Int.floor (((mkTweet username i r).likes : ℚ) *
        uniformQ (1/10) (3/10) r.uRetweets)).toNat := rfl
  have hrep : (mkTweet username i r).replies =
      (Int.floor (((mkTweet username i r).likes : ℚ) *
        uniformQ (5/100) (15/100) r.uReplies)).toNat := rfl
  have hviews : (mkTweet username i r).views =
      (mkTweet username i r).likes * randint 10 50 r.rViews := rfl
  refine ⟨?_, ?_, ?_⟩
  · rw [hret]
    apply floor_mul_le
    calc uniformQ (1/10) (3/10) r.uRetweets ≤ 3/10 := uniformQ_le (by norm_num) _
      _ ≤ 1 := by norm_num
  · rw [hrep]
    apply floor_mul_le
    calc uniformQ (5/100) (15/100) r.uReplies ≤ 15/100 := uniformQ_le (by norm_num) _
      _ ≤ 1 := by norm_num
  · rw [hviews]
    exact Nat.mul_le_mul (le_refl _) (le_randint 10 50 r.rViews)

/-- C8: every tweet produced by `_generate_sample_tweets` has empty extracted
hashtag and mention lists, since no token of any template/topic interpolation
starts with `'#'` or `'@'`. -/
theorem tweet_tags_empty (username : String) (i : Nat) (r : TweetRand) :
    (mkTweet username i r).hashtags = [] ∧ (mkTweet username i r).mentions = [] := by
  have htext : (mkTweet username i r).hashtags =
      extractTagged '#' (pyFormatTopic (pyChoice tweet_templates "" r.rTemplate)
        (pyChoice (topicsFor username) "" r.rTopic)) := rfl
  have hment : (mkTweet username i r).mentions =
      extractTagged '@' (pyFormatTopic (pyChoice tweet_templates "" r.rTemplate)
        (pyChoice (topicsFor username) "" r.rTopic)) := rfl
  have htm : pyChoice tweet_templates "" r.rTemplate ∈ tweet_templates :=
    pyChoice_mem _ _ _ tweet_templates_ne_nil
  have htop : pyChoice (topicsFor username) "" r.rTopic ∈ topicsFor username :=
    pyChoice_mem _ _ _ (topicsFor_ne_nil username)
  have hct := tweet_templates_clean _ htm
  have hcp := topicsFor_clean username _ htop
  have hkey : ∀ c : Char, c ∉ (pyChoice tweet_templates "" r.rTemplate).data →
      c ∉ (pyChoice (topicsFor username) "" r.rTopic).data →
      c ∉ (pyFormatTopic (pyChoice tweet_templates "" r.rTemplate)
        (pyChoice (topicsFor username) "" r.rTopic)).data := by
    intro c h1 h2 hc
    have hmem : c ∈ (pyChoice (topicsFor username) "" r.rTopic).data ∨
        c ∈ (pyChoice tweet_templates "" r.rTemplate).data :=
      mem_substTopic _ _ _ hc
    tauto
  rw [htext, hment]
  constructor
  · exact extractTagged_eq_nil _ _ (hkey '#' hct.1 hcp.1)
  · exact extractTagged_eq_nil _ _ (hkey '@' hct.2 hcp.2)

/-- C3: for a username whose generation succeeds, the stored tweet list is the
first 10 generated tweets reduced to `{text[:50], likes}`, its length is
`min(generated, 10)`, every stored text has at most 50 characters, and the
reported `tweet_count` equals the truncated length. -/
theorem success_entry_truncation (gen : Gen) (i : Nat) (u : String)
    (ud : UserData) (ts : List TweetData) (h : gen i u = Except.ok (ud, ts)) :
    (processUser gen i u).1.tweets =
        (ts.take 10).map (fun t => { text := pySlice 50 t.text, likes := t.likes : TweetOut }) ∧
    (processUser gen i u).1.tweets.length = min ts.length 10 ∧
    (∀ tw ∈ (processUser gen i u).1.tweets, tw.text.data.length ≤ 50) ∧
    (processUser gen i u).1.tweet_count = (processUser gen i u).1.tweets.length := by
  unfold processUser
  rw [h]
  refine ⟨rfl, ?_, ?_, ?_⟩
  · show ((ts.take 10).map
        (fun t => { text := pySlice 50 t.text, likes := t.likes : TweetOut })).length =
      min ts.length 10
    rw [List.length_map, List.length_take, Nat.min_comm]
  · intro tw htw
    have htw' : tw ∈ (ts.take 10).map
        (fun t => { text := pySlice 50 t.text, likes := t.likes : TweetOut }) := htw
    rw [List.mem_map] at htw'
    obtain ⟨t, _, rfl⟩ := htw'
    show (t.text.data.take 50).length ≤ 50
    rw [List.length_take]
    exact Nat.min_le_left _ _
  · show min ts.length 10 = ((ts.take 10).map
        (fun t => { text := pySlice 50 t.text, likes := t.likes : TweetOut })).length
    rw [List.length_map, List.length_take, Nat.min_comm]

/-- C3 witness: the truncation facts instantiated at a concrete successful
generation step. -/
theorem success_entry_truncation_witness :
    (processUser genOk 0 "w").1.tweets =
        (([sampleTweet].take 10).map
          (fun t => { text := pySlice 50 t.text, likes := t.likes : TweetOut })) ∧
    (processUser genOk 0 "w").1.tweets.length = min [sampleTweet].length 10 ∧
    (∀ tw ∈ (processUser genOk 0 "w").1.tweets, tw.text.data.length ≤ 50) ∧
    (processUser genOk 0 "w").1.tweet_count = (processUser genOk 0 "w").1.tweets.length :=
  success_entry_truncation genOk 0 "w" sampleUser [sampleTweet] rfl

/-- C2: a failing generation step is caught per-username: the failure record
`{user_info: null, tweets: [], tweet_count: 0, scrape_success: false,
error: msg}` is stored, and every requested username still receives an entry
(one failure never aborts the batch). -/
theorem failure_isolated (gen : Gen) (now : String)
    (input : Sum String (List String)) (tc : Nat) :
    (∀ (i : Nat) (u : String) (e : String), gen i u = Except.error e →
      (processUser gen i u).1 =
        { user_info := none, tweets := [], tweet_count := 0,
          scrape_success := false, error := some e }) ∧
    (∀ u ∈ normalizeUsernames input,
      (dlookup u (scrapeRun gen now input tc).users).isSome = true) := by
  constructor
  · intro i u e he
    unfold processUser
    rw [he]
  · intro u hu
    show (dlookup u (scrapeLoop gen (normalizeUsernames input) 0 ⟨[], 0, 0⟩).users).isSome
      = true
    rw [scrapeLoop_lookup]
    cases hl : lastIdx? u (normalizeUsernames input) with
    | some j => rfl
    | none =>
        exfalso
        have hcontra := (lastIdx?_isSome_iff u (normalizeUsernames input)).mpr hu
        rw [hl] at hcontra
        simp at hcontra

/-- C2 witness: the failure record and batch continuation at a concrete
always-throwing generation step over two usernames. -/
theorem failure_isolated_witness :
    (processUser genErr 0 "a").1 =
        { user_info := none, tweets := [], tweet_count := 0,
          scrape_success := false, error := some "boom" } ∧
    (dlookup "b" (scrapeRun genErr "now" (Sum.inr ["a", "b"]) 5).users).isSome = true :=
  ⟨(failure_isolated genErr "now" (Sum.inr ["a", "b"]) 5).1 0 "a" "boom" rfl,
   (failure_isolated genErr "now" (Sum.inr ["a", "b"]) 5).2 "b" (by decide)⟩

/-- C1: for every non-empty username list, the returned `users` mapping has an
entry for every requested (normalized) username, every key is a requested
username, the keys are distinct, and
`successful_scrapes + failed_scrapes = total requested`. -/
theorem one_entry_per_username (gen : Gen) (now : String)
    (input : Sum String (List String)) (tc : Nat)
    (_hne : normalizeUsernames input ≠ []) :
    (∀ u ∈ (scrapeRun gen now input tc).scrape_metadata.usernames_requested,
      (dlookup u (scrapeRun gen now input tc).users).isSome = true) ∧
    (∀ k ∈ (scrapeRun gen now input tc).users.map Prod.fst,
      k ∈ (scrapeRun gen now input tc).scrape_metadata.usernames_requested) ∧
    ((scrapeRun gen now input tc).users.map Prod.fst).Nodup ∧
    ((scrapeRun gen now input tc).summary.successful_scrapes : Int) +
        (scrapeRun gen now input tc).summary.failed_scrapes =
      ((scrapeRun gen now input tc).scrape_metadata.total_users : Int) := by
  refine ⟨?_, ?_, ?_, ?_⟩
  · intro u hu
    show (dlookup u (scrapeLoop gen (normalizeUsernames input) 0 ⟨[], 0, 0⟩).users).isSome
      = true
    rw [scrapeLoop_lookup]
    cases hl : lastIdx? u (normalizeUsernames input) with
    | some j => rfl
    | none =>
        exfalso
        have hcontra := (lastIdx?_isSome_iff u (normalizeUsernames input)).mpr hu
        rw [hl] at hcontra
        simp at hcontra
  · intro k hk
    have hk' : k ∈ ((scrapeLoop gen (normalizeUsernames input) 0 ⟨[], 0, 0⟩).users.map
        Prod.fst) := hk
    rcases (scrapeLoop_keys_mem gen (normalizeUsernames input) 0 ⟨[], 0, 0⟩ k).mp hk'
      with h | h
    · exact absurd h (by simp)
    · exact h
  · exact scrapeLoop_keys_nodup gen (normalizeUsernames input) 0 ⟨[], 0, 0⟩ (by simp)
  · show ((scrapeLoop gen (normalizeUsernames input) 0 ⟨[], 0, 0⟩).successful : Int) +
        (((normalizeUsernames input).length : Int) -
          ((scrapeLoop gen (normalizeUsernames input) 0 ⟨[], 0, 0⟩).successful : Int)) =
      ((normalizeUsernames input).length : Int)
    ring

/-- C1 witness: the per-username-entry facts instantiated at the concrete
non-empty request list `["a"]`. -/
theorem one_entry_per_username_witness :
    (∀ u ∈ (scrapeRun genErr "now" (Sum.inr ["a"]) 5).scrape_metadata.usernames_requested,
      (dlookup u (scrapeRun genErr "now" (Sum.inr ["a"]) 5).users).isSome = true) ∧
    (∀ k ∈ (scrapeRun genErr "now" (Sum.inr ["a"]) 5).users.map Prod.fst,
      k ∈ (scrapeRun genErr "now" (Sum.inr ["a"]) 5).scrape_metadata.usernames_requested) ∧
    ((scrapeRun genErr "now" (Sum.inr ["a"]) 5).users.map Prod.fst).Nodup ∧
    ((scrapeRun genErr "now" (Sum.inr ["a"]) 5).summary.successful_scrapes : Int) +
        (scrapeRun genErr "now" (Sum.inr ["a"]) 5).summary.failed_scrapes =
      ((scrapeRun genErr "now" (Sum.inr ["a"]) 5).scrape_metadata.total_users : Int) :=
  one_entry_per_username genErr "now" (Sum.inr ["a"]) 5 (by decide)

/-- C4: the summary's `success_rate` is `successful/total` and is `0` for an
empty username list; `average_tweets_per_user` is `total_tweets/successful`
and is `0` when no username succeeded. -/
theorem summary_rates (gen : Gen) (now : String)
    (input : Sum String (List String)) (tc : Nat) :
    (scrapeRun gen now input tc).summary.success_rate =
        ((scrapeRun gen now input tc).summary.successful_scrapes : ℚ) /
          ((scrapeRun gen now input tc).scrape_metadata.total_users : ℚ) ∧
    (normalizeUsernames input = [] →
      (scrapeRun gen now input tc).summary.success_rate = 0) ∧
    (scrapeRun gen now input tc).summary.average_tweets_per_user =
        ((scrapeRun gen now input tc).summary.total_tweets_collected : ℚ) /
          ((scrapeRun gen now input tc).summary.successful_scrapes : ℚ) ∧
    ((scrapeRun gen now input tc).summary.successful_scrapes = 0 →
      (scrapeRun gen now input tc).summary.average_tweets_per_user = 0) := by
  have hss : (scrapeRun gen now input tc).summary.successful_scrapes =
      (scrapeLoop gen (normalizeUsernames input) 0 ⟨[], 0, 0⟩).successful := rfl
  have htt : (scrapeRun gen now input tc).summary.total_tweets_collected =
      (scrapeLoop gen (normalizeUsernames input) 0 ⟨[], 0, 0⟩).total_tweets := rfl
  have htotal : (scrapeRun gen now input tc).scrape_metadata.total_users =
      (normalizeUsernames input).length := rfl
  have hrate : (scrapeRun gen now input tc).summary.success_rate =
      (if normalizeUsernames input = [] then (0 : ℚ)
       else ((scrapeLoop gen (normalizeUsernames input) 0 ⟨[], 0, 0⟩).successful : ℚ) /
         ((normalizeUsernames input).length : ℚ)) := rfl
  have havg : (scrapeRun gen now input tc).summary.average_tweets_per_user =
      (if 0 < (scrapeLoop gen (normalizeUsernames input) 0 ⟨[], 0, 0⟩).successful
       then ((scrapeLoop gen (normalizeUsernames input) 0 ⟨[], 0, 0⟩).total_tweets : ℚ) /
         ((scrapeLoop gen (normalizeUsernames input) 0 ⟨[], 0, 0⟩).successful : ℚ)
       else (0 : ℚ)) := rfl
  refine ⟨?_, ?_, ?_, ?_⟩
  · rw [hrate, hss, htotal]
    by_cases hul : normalizeUsernames input = []
    · rw [if_pos hul]
      rw [hul]
      show (0 : ℚ) =
        (((scrapeLoop gen [] 0 ⟨[], 0, 0⟩).successful : ℚ)) / ((List.length ([] : List String) : ℚ))
      rw [scrapeLoop_successful_of_nil]
      norm_num
    · rw [if_neg hul]
  · intro hul
    rw [hrate, if_pos hul]
  · rw [havg, htt, hss]
    by_cases hpos : 0 < (scrapeLoop gen (normalizeUsernames input) 0 ⟨[], 0, 0⟩).successful
    · rw [if_pos hpos]
    · rw [if_neg hpos]
      have h0 : (scrapeLoop gen (normalizeUsernames input) 0 ⟨[], 0, 0⟩).successful = 0 := by
        omega
      rw [h0]
      norm_num
  · intro h0
    rw [hss] at h0
    rw [havg, if_neg (by omega)]

/-- C4 witness: the summary divisions instantiated at the concrete empty
request list (rate `0`, zero successes). -/
theorem summary_rates_witness :
    (scrapeRun genErr "now" (Sum.inr []) 5).summary.success_rate =
        ((scrapeRun genErr "now" (Sum.inr []) 5).summary.successful_scrapes : ℚ) /
          ((scrapeRun genErr "now" (Sum.inr []) 5).scrape_metadata.total_users : ℚ) ∧
    (normalizeUsernames (Sum.inr []) = [] →
      (scrapeRun genErr "now" (Sum.inr []) 5).summary.success_rate = 0) ∧
    (scrapeRun genErr "now" (Sum.inr []) 5).summary.average_tweets_per_user =
        ((scrapeRun genErr "now" (Sum.inr []) 5).summary.total_tweets_collected : ℚ) /
          ((scrapeRun genErr "now" (Sum.inr []) 5).summary.successful_scrapes : ℚ) ∧
    ((scrapeRun genErr "now" (Sum.inr []) 5).summary.successful_scrapes = 0 →
      (scrapeRun genErr "now" (Sum.inr []) 5).summary.average_tweets_per_user = 0) :=
  summary_rates genErr "now" (Sum.inr []) 5

/-- C10: duplicate usernames collapse to one `users` entry holding the last
iteration's result, while the summary counters (`successful_scrapes` +
`failed_scrapes`, and `total_tweets_collected` as the sum of the generated
tweet counts of every occurrence) and `total_users` count every occurrence,
so `successful + failed` exceeds the number of stored entries whenever the
list has a duplicate. -/
theorem duplicates_collapse (gen : Gen) (now : String) (ul : List String) (tc : Nat) :
    (∀ u, dlookup u (scrapeRun gen now (Sum.inr ul) tc).users =
      (lastIdx? u ul).map (fun j => (processUser gen j u).1)) ∧
    ((scrapeRun gen now (Sum.inr ul) tc).users.map Prod.fst).Nodup ∧
    (((scrapeRun gen now (Sum.inr ul) tc).summary.successful_scrapes : Int) +
        (scrapeRun gen now (Sum.inr ul) tc).summary.failed_scrapes = (ul.length : Int)) ∧
    (scrapeRun gen now (Sum.inr ul) tc).summary.total_tweets_collected =
        ((ul.enum).map (fun p => (processUser gen p.1 p.2).2)).sum ∧
    (scrapeRun gen now (Sum.inr ul) tc).scrape_metadata.total_users = ul.length ∧
    (¬ ul.Nodup →
      ((scrapeRun gen now (Sum.inr ul) tc).users.map Prod.fst).length < ul.length) := by
  have hkeys_nodup : ((scrapeRun gen now (Sum.inr ul) tc).users.map Prod.fst).Nodup :=
    scrapeLoop_keys_nodup gen ul 0 ⟨[], 0, 0⟩ (by simp)
  have hkeys_sub : ∀ k ∈ (scrapeRun gen now (Sum.inr ul) tc).users.map Prod.fst, k ∈ ul := by
    intro k hk
    have hk' : k ∈ ((scrapeLoop gen ul 0 ⟨[], 0, 0⟩).users.map Prod.fst) := hk
    rcases (scrapeLoop_keys_mem gen ul 0 ⟨[], 0, 0⟩ k).mp hk' with h | h
    · exact absurd h (by simp)
    · exact h
  refine ⟨?_, hkeys_nodup, ?_, ?_, rfl, ?_⟩
  · intro u
    show dlookup u (scrapeLoop gen ul 0 ⟨[], 0, 0⟩).users =
      (lastIdx? u ul).map (fun j => (processUser gen j u).1)
    rw [scrapeLoop_lookup]
    cases hl : lastIdx? u ul with
    | some j =>
        show some (processUser gen (0 + j) u).1 = some (processUser gen j u).1
        rw [Nat.zero_add]
    | none => rfl
  · show ((scrapeLoop gen ul 0 ⟨[], 0, 0⟩).successful : Int) +
        ((ul.length : Int) - ((scrapeLoop gen ul 0 ⟨[], 0, 0⟩).successful : Int)) =
      (ul.length : Int)
    ring
  · show (scrapeLoop gen ul 0 ⟨[], 0, 0⟩).total_tweets =
      ((ul.enum).map (fun p => (processUser gen p.1 p.2).2)).sum
    rw [scrapeLoop_total_tweets]
    show 0 + ((ul.enumFrom 0).map (fun p => (processUser gen p.1 p.2).2)).sum =
      ((ul.enum).map (fun p => (processUser gen p.1 p.2).2)).sum
    rw [Nat.zero_add]
    rfl
  · intro hnd
    have h1 : ((scrapeRun gen now (Sum.inr ul) tc).users.map Prod.fst).length =
        ((scrapeRun gen now (Sum.inr ul) tc).users.map Prod.fst).toFinset.card :=
      (List.toFinset_card_of_nodup hkeys_nodup).symm
    have h2 : ((scrapeRun gen now (Sum.inr ul) tc).users.map Prod.fst).toFinset ⊆
        ul.toFinset := by
      intro x hx
      exact List.mem_toFinset.mpr (hkeys_sub x (List.mem_toFinset.mp hx))
    have h3 : ul.toFinset.card = ul.dedup.length := List.card_toFinset ul
    have h4 : ul.dedup.length < ul.length := by
      have hsl : ul.dedup.Sublist ul := List.dedup_sublist ul
      rcases lt_or_eq_of_le hsl.length_le with h | h
      · exact h
      · exfalso
        exact hnd (hsl.eq_of_length h ▸ List.nodup_dedup ul)
    calc ((scrapeRun gen now (Sum.inr ul) tc).users.map Prod.fst).length
        = ((scrapeRun gen now (Sum.inr ul) tc).users.map Prod.fst).toFinset.card := h1
      _ ≤ ul.toFinset.card := Finset.card_le_card h2
      _ = ul.dedup.length := h3
      _ < ul.length := h4

/-- C10 witness: the collapse facts instantiated at the concrete duplicate
request list `["bob", "bob"]` with an always-succeeding generation step, so
`total_tweets_collected` counts both occurrences. -/
theorem duplicates_collapse_witness :
    dlookup "bob" (scrapeRun genOk "now" (Sum.inr ["bob", "bob"]) 5).users =
      (lastIdx? "bob" ["bob", "bob"]).map (fun j => (processUser genOk j "bob").1) ∧
    (((scrapeRun genOk "now" (Sum.inr ["bob", "bob"]) 5).summary.successful_scrapes : Int) +
        (scrapeRun genOk "now" (Sum.inr ["bob", "bob"]) 5).summary.failed_scrapes =
      ((["bob", "bob"] : List String).length : Int)) ∧
    (scrapeRun genOk "now" (Sum.inr ["bob", "bob"]) 5).summary.total_tweets_collected =
      (((["bob", "bob"] : List String).enum).map (fun p => (processUser genOk p.1 p.2).2)).sum ∧
    ((scrapeRun genOk "now" (Sum.inr ["bob", "bob"]) 5).users.map Prod.fst).length <
      (["bob", "bob"] : List String).length :=
  ⟨(duplicates_collapse genOk "now" ["bob", "bob"] 5).1 "bob",
   (duplicates_collapse genOk "now" ["bob", "bob"] 5).2.2.1,
   (duplicates_collapse genOk "now" ["bob", "bob"] 5).2.2.2.1,
   (duplicates_collapse genOk "now" ["bob", "bob"] 5).2.2.2.2.2 (by decide)⟩

/-- C5 counterexample: the claimed normalization is wrong on both counts.  A
non-leading `'@'` in a comma-separated string input is also removed
(`"user@name"` becomes `"username"`, not `"user@name"`), and a list input is
not normalized at all (`["@bob"]` keeps its leading `'@'`). -/
theorem normalize_counterexample :
    normalizeUsernames (Sum.inl "user@name") = ["username"] ∧
    "username" ≠ "user@name" ∧
    normalizeUsernames (Sum.inr ["@bob"]) = ["@bob"] ∧
    "@bob" ≠ "bob" := by
  refine ⟨by decide, by decide, rfl, by decide⟩

/-- C5 (amended): only a comma-separated string input is normalized — it is
split on commas (piece count preserved), and each piece is stripped and has
every `'@'` character removed; a literal list input is used as-is. -/
theorem normalize_amended (s : String) (l : List String) :
    (normalizeUsernames (Sum.inl s)).length = (pySplitComma s).length ∧
    (∀ u ∈ normalizeUsernames (Sum.inl s), '@' ∉ u.data) ∧
    (∀ u ∈ normalizeUsernames (Sum.inl s),
      ∃ piece ∈ pySplitComma s, u = pyRemoveAts (pyStrip piece)) ∧
    normalizeUsernames (Sum.inr l) = l := by
  refine ⟨?_, ?_, ?_, rfl⟩
  · show ((pySplitComma s).map (fun u => pyRemoveAts (pyStrip u))).length =
      (pySplitComma s).length
    rw [List.length_map]
  · intro u hu
    have hu' : u ∈ (pySplitComma s).map (fun u => pyRemoveAts (pyStrip u)) := hu
    rw [List.mem_map] at hu'
    obtain ⟨piece, _, rfl⟩ := hu'
    intro hc
    have hc' : '@' ∈ (pyStrip piece).data.filter (fun c => c ≠ '@') := hc
    have := (List.mem_filter.mp hc').2
    simp at this
  · intro u hu
    have hu' : u ∈ (pySplitComma s).map (fun u => pyRemoveAts (pyStrip u)) := hu
    rw [List.mem_map] at hu'
    obtain ⟨piece, hpmem, rfl⟩ := hu'
    exact ⟨piece, hpmem, rfl⟩

/-- C5 witness: the amended normalization facts at the concrete inputs
`" @a "` (string branch) and `["x"]` (list branch). -/
theorem normalize_amended_witness :
    (normalizeUsernames (Sum.inl " @a ")).length = (pySplitComma " @a ").length ∧
    '@' ∉ ("a" : String).data ∧
    normalizeUsernames (Sum.inr ["x"]) = ["x"] :=
  ⟨(normalize_amended " @a " ["x"]).1,
   (normalize_amended " @a " ["x"]).2.1 "a" (by decide),
   (normalize_amended " @a " ["x"]).2.2.2⟩

/-- C6 counterexample: the known-profile table of
`_generate_sample_user_data` has 5 literal entries, not 10 (the 10-entry
table is the topic table).  `"cdixon"`, one of the 10 topic-table names, is
not in the profile table and receives a synthesized profile with title-cased
display name. -/
theorem profile_table_counterexample :
    user_profiles.length = 5 ∧
    user_profiles.length ≠ 10 ∧
    "cdixon" ∈ topic_themes.map Prod.fst ∧
    "cdixon" ∉ user_profiles.map Prod.fst ∧
    (generate_sample_user_data "cdixon" ⟨0, 0, 0, 0⟩).display_name = "Cdixon" := by
  refine ⟨rfl, by decide, by decide, by decide, rfl⟩

/-- C6 (amended): profile generation uses a fixed table of 5 literal entries:
a hit returns the literal profile exactly (for `"elonmusk"`,
`followers_count = 150000000` and `verified = true`); a miss synthesizes a
profile with title-cased display name, `followers ∈ [10000, 1000000]`,
`following ∈ [100, 5000]`, and `tweet_count ∈ [1000, 50000]`, for every
random draw. -/
theorem profile_generation (u : String) (r : ProfileRand) :
    user_profiles.length = 5 ∧
    ((generate_sample_user_data "elonmusk" r).followers_count = 150000000 ∧
     (generate_sample_user_data "elonmusk" r).verified = true) ∧
    (∀ pr, user_profiles.find? (fun p => p.1 = u) = some pr →
      generate_sample_user_data u r =
        { username := u, display_name := pr.2.display_name, bio := pr.2.bio,
          followers_count := pr.2.followers_count,
          following_count := pr.2.following_count,
          tweet_count := pr.2.tweet_count, verified := pr.2.verified }) ∧
    (user_profiles.find? (fun p => p.1 = u) = none →
      (generate_sample_user_data u r).display_name = pyTitle u ∧
      10000 ≤ (generate_sample_user_data u r).followers_count ∧
      (generate_sample_user_data u r).followers_count ≤ 1000000 ∧
      100 ≤ (generate_sample_user_data u r).following_count ∧
      (generate_sample_user_data u r).following_count ≤ 5000 ∧
      1000 ≤ (generate_sample_user_data u r).tweet_count ∧
      (generate_sample_user_data u r).tweet_count ≤ 50000) := by
  refine ⟨rfl, ⟨rfl, rfl⟩, ?_, ?_⟩
  · intro pr hf
    unfold generate_sample_user_data
    rw [hf]
  · intro hf
    unfold generate_sample_user_data
    rw [hf]
    exact ⟨rfl, le_randint _ _ _, randint_le (by norm_num) _,
      le_randint _ _ _, randint_le (by norm_num) _,
      le_randint _ _ _, randint_le (by norm_num) _⟩

/-- C6 witness: the synthesized branch instantiated at the concrete unknown
username `"random_handle_123"` and a concrete draw. -/
theorem profile_generation_witness :
    user_profiles.find? (fun p => p.1 = "random_handle_123") = none ∧
    (generate_sample_user_data "random_handle_123" ⟨7, 8, 9, 1⟩).display_name =
      pyTitle "random_handle_123" ∧
    10000 ≤ (generate_sample_user_data "random_handle_123" ⟨7, 8, 9, 1⟩).followers_count ∧
    (generate_sample_user_data "random_handle_123" ⟨7, 8, 9, 1⟩).followers_count ≤ 1000000 ∧
    100 ≤ (generate_sample_user_data "random_handle_123" ⟨7, 8, 9, 1⟩).following_count ∧
    (generate_sample_user_data "random_handle_123" ⟨7, 8, 9, 1⟩).following_count ≤ 5000 ∧
    1000 ≤ (generate_sample_user_data "random_handle_123" ⟨7, 8, 9, 1⟩).tweet_count ∧
    (generate_sample_user_data "random_handle_123" ⟨7, 8, 9, 1⟩).tweet_count ≤ 50000 :=
  ⟨by decide, (profile_generation "random_handle_123" ⟨7, 8, 9, 1⟩).2.2.2 (by decide)⟩

/-- C9: `PDFWriterTool._run` always returns a string: invalid or empty data
yields the fixed error string without consulting the backend, a backend
exception is converted to a returned error string, and the two boolean
backend outcomes map to the success/failure messages. -/
theorem pdf_run_total (dm dn : Bool) (ts : String) (ofn : Option String)
    (gen : String → Except String Bool) :
    ((dm = false ∨ dn = false) →
      pdfRun dm dn ts ofn gen = "Error: Invalid data provided for PDF generation.") ∧
    ((dm = false ∨ dn = false) → ∀ gen', pdfRun dm dn ts ofn gen = pdfRun dm dn ts ofn gen') ∧
    (dm = true → dn = true → ∀ e, gen (pdfOutputPath ts ofn) = Except.error e →
      pdfRun dm dn ts ofn gen =
        "An unexpected error occurred during PDF generation: " ++ e) ∧
    (dm = true → dn = true → gen (pdfOutputPath ts ofn) = Except.ok true →
      pdfRun dm dn ts ofn gen =
        "PDF report successfully generated at: " ++ pdfOutputPath ts ofn) ∧
    (dm = true → dn = true → gen (pdfOutputPath ts ofn) = Except.ok false →
      pdfRun dm dn ts ofn gen =
        "Failed to generate PDF report. Check logs for details. (Path: "
          ++ pdfOutputPath ts ofn ++ ")") := by
  refine ⟨?_, ?_, ?_, ?_, ?_⟩
  · rintro (rfl | rfl)
    · rfl
    · unfold pdfRun
      rw [Bool.not_false, Bool.or_true]
      rfl
  · rintro (rfl | rfl) gen'
    · rfl
    · unfold pdfRun
      rw [Bool.not_false, Bool.or_true]
      rfl
  · rintro rfl rfl e hg
    unfold pdfRun
    rw [hg]
    rfl
  · rintro rfl rfl hg
    unfold pdfRun
    rw [hg]
    rfl
  · rintro rfl rfl hg
    unfold pdfRun
    rw [hg]
    rfl

/-- C9 witness: the invalid-data and backend-exception cases at concrete
inputs. -/
theorem pdf_run_total_witness :
    pdfRun false true "ts" none genPdfErr =
      "Error: Invalid data provided for PDF generation." ∧
    pdfRun true true "ts" none genPdfErr =
      "An unexpected error occurred during PDF generation: " ++ "disk" :=
  ⟨(pdf_run_total false true "ts" none genPdfErr).1 (Or.inl rfl),
   (pdf_run_total true true "ts" none genPdfErr).2.2.1 rfl rfl "disk" rfl⟩

end XScraper
